import Mathlib

/-!
Shallow embedding of the Mixture-of-Agents (MoA) filter pipeline
(`mixture-of-agents.py`) and verification of its specification.

The embedding models:
* the `Valves` configuration record;
* the prompt composers `create_aggregator_prompt` and
  `create_final_aggregator_prompt` (pure string builders);
* the orchestration loop of `Pipeline.moa_process`, with the random
  agent selection (`random.sample`) abstracted as a function
  `sample : Nat → List String` constrained by `SampleOk`, and the
  network abstracted as an oracle `net : String → String → String`
  giving the text each backend call returns (`query_ollama` totalises
  its result on the paths modelled by the oracle);
* the exception behaviour of `query_ollama` itself, over an explicit
  outcome datatype (`NetOutcome`) and a small JSON value type (`JVal`),
  with Python lookup errors (`KeyError`/`IndexError`/`TypeError`)
  surfaced through `Except PyErr`;
* the `inlet` hook over a body record whose untouched fields are kept
  polymorphically.

Every network call the orchestrator issues is recorded in an explicit
trace of `Call` values (model queried, prompt sent), in issue order.
-/

namespace MoA

/-- Configuration record, after `Pipeline.Valves` (the two open-webui
routing fields `pipelines` and `priority` play no role in the engine and
are omitted). `num_layers` and `num_agents_per_layer` are Python `int`s,
hence `Int`. -/
structure Valves where
  available_models : List String
  aggregator_model : String
  openai_api_base : String
  api_key : String
  num_layers : Int
  num_agents_per_layer : Int
deriving DecidableEq, Repr

/-- One outbound backend call: which model id was queried and with which
prompt. -/
structure Call where
  model : String
  prompt : String
deriving DecidableEq, Repr

/-- `enumerate(xs, n)` of Python: pair every element with its index,
starting at `n`. -/
def enumerateFrom (n : Nat) : List α → List (Nat × α)
  | [] => []
  | x :: xs => (n, x) :: enumerateFrom (n + 1) xs

/-- `Pipeline.create_aggregator_prompt`: original prompt, then the
previous layer's responses enumerated from 1, then the improvement
instruction. -/
def create_aggregator_prompt (original_prompt : String)
    (previous_responses : List String) : String :=
  ((enumerateFrom 1 previous_responses).foldl
      (fun acc ir => acc ++ Nat.repr ir.1 ++ ". " ++ ir.2 ++ "\n\n")
      ("Original prompt: " ++ original_prompt ++ "\n\nPrevious responses:\n"))
    ++ "Based on the above responses and the original prompt, provide an improved and comprehensive answer:"

/-- `Pipeline.create_final_aggregator_prompt`: original prompt, then for
every layer (enumerated from 1) the layer header and its responses
(enumerated from 1), then the final-synthesis instruction quoting the
original prompt. -/
def create_final_aggregator_prompt (original_prompt : String)
    (all_layer_outputs : List (List String)) : String :=
  ((enumerateFrom 1 all_layer_outputs).foldl
      (fun acc lr =>
        (enumerateFrom 1 lr.2).foldl
          (fun a ir => a ++ "  " ++ Nat.repr ir.1 ++ ". " ++ ir.2 ++ "\n\n")
          (acc ++ "Layer " ++ Nat.repr lr.1 ++ ":\n"))
      ("Original prompt: " ++ original_prompt ++ "\n\nResponses from all layers:\n"))
    ++ ("Considering all the responses from different layers and the original prompt \x27"
        ++ original_prompt
        ++ "\x27, provide a final, comprehensive answer that strictly adheres to the original request:")

/-- The size `random.sample` is asked for in `moa_process`:
`min(num_agents_per_layer, len(available_models))`. -/
def sampleSize (v : Valves) : Int :=
  min v.num_agents_per_layer (v.available_models.length : Int)

/-- Contract of `random.sample(available_models, k)` per layer: the
sampled list has exactly `k = sampleSize v` elements, drawn without
replacement (no duplicates) from `available_models`. Order is the draw
order and is otherwise unconstrained. -/
def SampleOk (v : Valves) (sample : Nat → List String) : Prop :=
  ∀ L : Nat, ((sample L).length : Int) = sampleSize v ∧ (sample L).Nodup ∧
    ∀ a ∈ sample L, a ∈ v.available_models

/-- The calls issued by the inner `for agent in layer_agents` loop of
`moa_process` at layer index `layer`, given the `layer_outputs`
accumulated so far: layer 0 queries each sampled agent with the original
prompt; any later layer queries the aggregator model with the
aggregation prompt built from `layer_outputs[-1]`. -/
def layerCalls (v : Valves) (sample : Nat → List String) (prompt : String)
    (layer : Nat) (layer_outputs : List (List String)) : List Call :=
  (sample layer).map (fun agent =>
    if layer = 0 then { model := agent, prompt := prompt }
    else { model := v.aggregator_model,
           prompt := create_aggregator_prompt prompt (layer_outputs.getLastD []) })

/-- The `for layer in range(...)` loop of `moa_process`, run for `n`
layers: returns the accumulated `layer_outputs` (one `List String` per
layer, each entry the oracle's response to the corresponding call) and
the per-layer call trace. -/
def moaLoop (v : Valves) (sample : Nat → List String)
    (net : String → String → String) (prompt : String) :
    Nat → List (List String) × List (List Call)
  | 0 => ([], [])
  | n + 1 =>
    let prev := moaLoop v sample net prompt n
    let calls := layerCalls v sample prompt n prev.1
    (prev.1 ++ [calls.map (fun c => net c.model c.prompt)], prev.2 ++ [calls])

/-- `Pipeline.moa_process`: precondition check (Python truthiness of the
three valves), the layer loop over `range(num_layers)`, then one final
aggregator call on the final synthesis prompt. Returns the response
string and the flat trace of every call issued, in order. -/
def moa_process (v : Valves) (sample : Nat → List String)
    (net : String → String → String) (prompt : String) : String × List Call :=
  if v.available_models = [] ∨ v.aggregator_model = "" ∨ v.openai_api_base = "" then
    ("Error: Available models, aggregator model, or API base URL not set.", [])
  else
    let run := moaLoop v sample net prompt v.num_layers.toNat
    let final_prompt := create_final_aggregator_prompt prompt run.1
    (net v.aggregator_model final_prompt,
      run.2.flatten ++ [{ model := v.aggregator_model, prompt := final_prompt }])

/-- One chat message: its `content` field plus all its other fields,
kept opaque. -/
structure Message (β : Type) where
  content : String
  fields : β
deriving DecidableEq, Repr

/-- A request body: its optional `messages` list (absent key modelled as
`none`) plus all its other fields, kept opaque. -/
structure Body (α β : Type) where
  messages : Option (List (Message β))
  fields : α
deriving DecidableEq, Repr

/-- `Pipeline.inlet`: read `body.get("messages", [])`; if empty, return
the body unchanged; otherwise run `moa_process` on the last message's
content and write the result back into that message's `content`. Also
returns the trace of network calls made. -/
def inlet (v : Valves) (sample : Nat → List String)
    (net : String → String → String) (body : Body α β) : Body α β × List Call :=
  let messages := body.messages.getD []
  if h : messages.isEmpty then (body, [])
  else
    let last_message := messages.getLast (by simp [List.isEmpty_iff] at h; exact h)
    let r := moa_process v sample net last_message.content
    let new_messages := messages.dropLast ++ [{ last_message with content := r.1 }]
    ({ body with messages := some new_messages }, r.2)

/-- Minimal JSON value type for the payload returned by the backend. -/
inductive JVal where
  | null
  | bool (b : Bool)
  | num (n : Int)
  | str (s : String)
  | arr (xs : List JVal)
  | obj (fields : List (String × JVal))

/-- Python exceptions that subscripting a decoded JSON payload can
raise; none of them is a `requests.RequestException`, so none is caught
by `query_ollama`. -/
inductive PyErr where
  | keyError
  | indexError
  | typeError
deriving DecidableEq, Repr

/-- Python `j["k"]` with a string key: dict lookup (`KeyError` when
missing), `TypeError` on any non-dict value. -/
def jGetKey (j : JVal) (k : String) : Except PyErr JVal :=
  match j with
  | .obj fs =>
    match fs.lookup k with
    | some val => .ok val
    | none => .error .keyError
  | _ => .error .typeError

/-- Python `j[i]` with a non-negative integer index: list indexing
(`IndexError` out of range), string indexing (a one-character string),
`KeyError` on a JSON-decoded dict (its keys are strings), `TypeError`
otherwise. -/
def jGetIdx (j : JVal) (i : Nat) : Except PyErr JVal :=
  match j with
  | .arr xs =>
    match xs.get? i with
    | some val => .ok val
    | none => .error .indexError
  | .str s =>
    match s.data.get? i with
    | some c => .ok (.str (String.mk [c]))
    | none => .error .indexError
  | .obj _ => .error .keyError
  | _ => .error .typeError

/-- Outcome of the single `requests.post` attempt in `query_ollama`:
either the transport raised (`requests.RequestException`), or a response
arrived with a status code and a body that is (`some j`) or is not
(`none`) valid JSON. -/
inductive NetOutcome where
  | transportError
  | httpResponse (status : Nat) (body : Option JVal)

/-- The payload extraction `response.json()["choices"][0]["message"]["content"]`. -/
def extract_content (j : JVal) : Except PyErr JVal := do
  let choices ← jGetKey j ("choices")
  let first ← jGetIdx choices 0
  let message ← jGetKey first ("message")
  jGetKey message ("content")

/-- `Pipeline.query_ollama` over an explicit network outcome. The
`try`/`except requests.RequestException` catches the transport error,
the `HTTPError` raised by `raise_for_status()` on a 4xx/5xx status, and
the `requests.exceptions.JSONDecodeError` raised by `.json()` on a
non-JSON body, converting each to the sentinel string; an error raised
by the subscript chain on a decoded payload (`PyErr`) is not caught and
propagates. -/
def query_ollama (model : String) (outcome : NetOutcome) : Except PyErr JVal :=
  match outcome with
  | .transportError => .ok (.str ("Error: Unable to query model " ++ model))
  | .httpResponse status body =>
    if 400 ≤ status ∧ status < 600 then
      .ok (.str ("Error: Unable to query model " ++ model))
    else
      match body with
      | none => .ok (.str ("Error: Unable to query model " ++ model))
      | some j => extract_content j

/-- A concrete selector whose draw comes back in reversed order,
exercising the order-freedom of the sampling contract. -/
def sample8w : Nat → List String := fun _ => ["B", "A"]

/-- Concatenation of a list of strings, mirroring Python string `+=`
accumulation over a loop. -/
def strConcat : List String → String
  | [] => ""
  | s :: rest => s ++ strConcat rest

/-- The string `s` occurs as a contiguous substring of `t`. -/
def occursIn (s t : String) : Prop := ∃ a b, t = a ++ s ++ b

/-- One enumerated response line of the final aggregator prompt. -/
def respPiece (ir : Nat × String) : String :=
  "  " ++ Nat.repr ir.1 ++ ". " ++ ir.2 ++ "\n\n"

/-- One layer block of the final aggregator prompt: the layer header
followed by that layer's enumerated response lines. -/
def layerBlock (lr : Nat × List String) : String :=
  "Layer " ++ Nat.repr lr.1 ++ ":\n" ++ strConcat ((enumerateFrom 1 lr.2).map respPiece)

/-! ### Structural lemmas about the layer loop -/

theorem moaLoop_fst_length (v : Valves) (sample : Nat → List String)
    (net : String → String → String) (prompt : String) :
    ∀ n, (moaLoop v sample net prompt n).1.length = n := by
  intro n
  induction n with
  | zero => rfl
  | succ n ih => simp [moaLoop, ih]

theorem moaLoop_snd_length (v : Valves) (sample : Nat → List String)
    (net : String → String → String) (prompt : String) :
    ∀ n, (moaLoop v sample net prompt n).2.length = n := by
  intro n
  induction n with
  | zero => rfl
  | succ n ih => simp [moaLoop, ih]

theorem moaLoop_fst_getD_succ (v : Valves) (sample : Nat → List String)
    (net : String → String → String) (prompt : String) (L n : Nat)
    (d : List String) (h : L < n) :
    (moaLoop v sample net prompt (n + 1)).1.getD L d =
      (moaLoop v sample net prompt n).1.getD L d := by
  simp only [moaLoop]
  rw [List.getD_append]
  rw [moaLoop_fst_length]
  exact h

theorem moaLoop_snd_getD_succ (v : Valves) (sample : Nat → List String)
    (net : String → String → String) (prompt : String) (L n : Nat)
    (d : List Call) (h : L < n) :
    (moaLoop v sample net prompt (n + 1)).2.getD L d =
      (moaLoop v sample net prompt n).2.getD L d := by
  simp only [moaLoop]
  rw [List.getD_append]
  rw [moaLoop_snd_length]
  exact h

theorem moaLoop_fst_getD_stable (v : Valves) (sample : Nat → List String)
    (net : String → String → String) (prompt : String) (L n m : Nat)
    (d : List String) (h1 : L < n) (h2 : n ≤ m) :
    (moaLoop v sample net prompt m).1.getD L d =
      (moaLoop v sample net prompt n).1.getD L d := by
  induction h2 with
  | refl => rfl
  | step h ih =>
    rw [moaLoop_fst_getD_succ]
    · exact ih
    · exact Nat.lt_of_lt_of_le h1 h

theorem moaLoop_snd_getD_stable (v : Valves) (sample : Nat → List String)
    (net : String → String → String) (prompt : String) (L n m : Nat)
    (d : List Call) (h1 : L < n) (h2 : n ≤ m) :
    (moaLoop v sample net prompt m).2.getD L d =
      (moaLoop v sample net prompt n).2.getD L d := by
  induction h2 with
  | refl => rfl
  | step h ih =>
    rw [moaLoop_snd_getD_succ]
    · exact ih
    · exact Nat.lt_of_lt_of_le h1 h

theorem moaLoop_snd_getD_new (v : Valves) (sample : Nat → List String)
    (net : String → String → String) (prompt : String) (n : Nat)
    (d : List Call) :
    (moaLoop v sample net prompt (n + 1)).2.getD n d =
      layerCalls v sample prompt n (moaLoop v sample net prompt n).1 := by
  simp only [moaLoop]
  rw [List.getD_append_right]
  · rw [moaLoop_snd_length]
    simp
  · rw [moaLoop_snd_length]

theorem moaLoop_fst_getD_new (v : Valves) (sample : Nat → List String)
    (net : String → String → String) (prompt : String) (n : Nat)
    (d : List String) :
    (moaLoop v sample net prompt (n + 1)).1.getD n d =
      (layerCalls v sample prompt n (moaLoop v sample net prompt n).1).map
        (fun c => net c.model c.prompt) := by
  simp only [moaLoop]
  rw [List.getD_append_right]
  · rw [moaLoop_fst_length]
    simp
  · rw [moaLoop_fst_length]

theorem moaLoop_snd_getD_eq (v : Valves) (sample : Nat → List String)
    (net : String → String → String) (prompt : String) (L n : Nat)
    (d : List Call) (h : L < n) :
    (moaLoop v sample net prompt n).2.getD L d =
      layerCalls v sample prompt L (moaLoop v sample net prompt L).1 := by
  rw [moaLoop_snd_getD_stable v sample net prompt L (L + 1) n d (Nat.lt_succ_self L) h]
  exact moaLoop_snd_getD_new v sample net prompt L d

theorem moaLoop_fst_getD_eq (v : Valves) (sample : Nat → List String)
    (net : String → String → String) (prompt : String) (L n : Nat)
    (d : List String) (h : L < n) :
    (moaLoop v sample net prompt n).1.getD L d =
      (layerCalls v sample prompt L (moaLoop v sample net prompt L).1).map
        (fun c => net c.model c.prompt) := by
  rw [moaLoop_fst_getD_stable v sample net prompt L (L + 1) n d (Nat.lt_succ_self L) h]
  exact moaLoop_fst_getD_new v sample net prompt L d

theorem getLastD_eq_getD (l : List α) (d : α) :
    l.getLastD d = l.getD (l.length - 1) d := by
  rw [List.getLastD_eq_getLast?, List.getLast?_eq_get?, List.getD_eq_getD_get?]

theorem moaLoop_prev_getLastD (v : Valves) (sample : Nat → List String)
    (net : String → String → String) (prompt : String) (L n : Nat)
    (h0 : 0 < L) (hn : L ≤ n) :
    (moaLoop v sample net prompt L).1.getLastD [] =
      (moaLoop v sample net prompt n).1.getD (L - 1) [] := by
  have hlen : (moaLoop v sample net prompt L).1.length = L :=
    moaLoop_fst_length v sample net prompt L
  rw [getLastD_eq_getD, hlen]
  rw [moaLoop_fst_getD_stable v sample net prompt (L - 1) L n [] (by omega) hn]

/-- Full characterisation of the calls issued at a layer `L > 0`: all of
them are the same call to the aggregator model, with the aggregation
prompt built from the previous layer's output, one call per sampled
agent slot. -/
theorem moaLoop_calls_pos (v : Valves) (sample : Nat → List String)
    (net : String → String → String) (prompt : String) (L n : Nat)
    (h0 : 0 < L) (hn : L < n) :
    (moaLoop v sample net prompt n).2.getD L [] =
      List.replicate (sample L).length
        { model := v.aggregator_model,
          prompt := create_aggregator_prompt prompt
            ((moaLoop v sample net prompt n).1.getD (L - 1) []) } := by
  rw [moaLoop_snd_getD_eq v sample net prompt L n [] hn]
  rw [layerCalls]
  rw [← moaLoop_prev_getLastD v sample net prompt L n h0 (Nat.le_of_lt hn)]
  have hL : L ≠ 0 := Nat.pos_iff_ne_zero.mp h0
  simp [hL]

/-- Characterisation of layer 0's calls: each sampled agent is queried
with the original prompt. -/
theorem moaLoop_calls_zeroth (v : Valves) (sample : Nat → List String)
    (net : String → String → String) (prompt : String) (n : Nat)
    (hn : 0 < n) :
    (moaLoop v sample net prompt n).2.getD 0 [] =
      (sample 0).map (fun agent => { model := agent, prompt := prompt }) := by
  rw [moaLoop_snd_getD_eq v sample net prompt 0 n [] hn]
  simp [layerCalls]

/-- Each layer's recorded output is the oracle's response to each of
that layer's recorded calls, in call order. -/
theorem moaLoop_outputs (v : Valves) (sample : Nat → List String)
    (net : String → String → String) (prompt : String) (L n : Nat)
    (h : L < n) :
    (moaLoop v sample net prompt n).1.getD L [] =
      ((moaLoop v sample net prompt n).2.getD L []).map
        (fun c => net c.model c.prompt) := by
  rw [moaLoop_fst_getD_eq v sample net prompt L n [] h,
    moaLoop_snd_getD_eq v sample net prompt L n [] h]

/-! ### String occurrence lemmas for the final aggregator prompt -/

theorem strConcat_append (l₁ l₂ : List String) :
    strConcat (l₁ ++ l₂) = strConcat l₁ ++ strConcat l₂ := by
  induction l₁ with
  | nil => simp [strConcat]
  | cons s t ih => simp [strConcat, ih, String.append_assoc]

theorem occursIn_append_left (s t u : String) (h : occursIn s t) :
    occursIn s (u ++ t) := by
  obtain ⟨a, b, rfl⟩ := h
  exact ⟨u ++ a, b, by simp [String.append_assoc]⟩

theorem occursIn_append_right (s t u : String) (h : occursIn s t) :
    occursIn s (t ++ u) := by
  obtain ⟨a, b, rfl⟩ := h
  exact ⟨a, b ++ u, by simp [String.append_assoc]⟩

theorem occursIn_trans (s t u : String) (h1 : occursIn s t) (h2 : occursIn t u) :
    occursIn s u := by
  obtain ⟨a, b, rfl⟩ := h1
  obtain ⟨c, d, rfl⟩ := h2
  exact ⟨c ++ a, b ++ d, by simp [String.append_assoc]⟩

theorem foldl_append_eq (f : α → String) (l : List α) :
    ∀ init : String, l.foldl (fun a x => a ++ f x) init = init ++ strConcat (l.map f) := by
  induction l with
  | nil => intro init; simp [strConcat]
  | cons x t ih =>
    intro init
    simp only [List.foldl_cons, List.map_cons, strConcat]
    rw [ih, String.append_assoc]

theorem strConcat_map_occurs (f : α → String) (l : List α) (x : α) (hx : x ∈ l) :
    occursIn (f x) (strConcat (l.map f)) := by
  obtain ⟨l₁, l₂, rfl⟩ := List.append_of_mem hx
  rw [List.map_append, strConcat_append]
  exact ⟨strConcat (l₁.map f), strConcat (l₂.map f), by
    simp [strConcat, String.append_assoc]⟩

theorem enumerateFrom_mem_getD (n : Nat) (l : List α) (i : Nat) (d : α)
    (h : i < l.length) : (n + i, l.getD i d) ∈ enumerateFrom n l := by
  induction l generalizing n i with
  | nil => simp at h
  | cons x t ih =>
    cases i with
    | zero => simp [enumerateFrom]
    | succ j =>
      have hj : j < t.length := by simpa using h
      have hmem := ih (n + 1) j hj
      have hidx : n + (j + 1) = (n + 1) + j := by omega
      rw [hidx, List.getD_cons_succ]
      exact List.mem_cons_of_mem _ hmem

/-- Decomposition of `create_final_aggregator_prompt` into its leading
context, its layer blocks, and its closing instruction. -/
theorem create_final_aggregator_prompt_eq (p : String) (H : List (List String)) :
    create_final_aggregator_prompt p H =
      ("Original prompt: " ++ p ++ "\n\nResponses from all layers:\n")
        ++ strConcat ((enumerateFrom 1 H).map layerBlock)
        ++ ("Considering all the responses from different layers and the original prompt \x27"
            ++ p
            ++ "\x27, provide a final, comprehensive answer that strictly adheres to the original request:") := by
  rw [create_final_aggregator_prompt]
  have hstep : ∀ (acc : String), ∀ lr ∈ enumerateFrom 1 H,
      (enumerateFrom 1 lr.2).foldl
        (fun a ir => a ++ "  " ++ Nat.repr ir.1 ++ ". " ++ ir.2 ++ "\n\n")
        (acc ++ "Layer " ++ Nat.repr lr.1 ++ ":\n") = acc ++ layerBlock lr := by
    intro acc lr _
    have hinner : ∀ (a : String), ∀ ir ∈ enumerateFrom 1 lr.2,
        a ++ "  " ++ Nat.repr ir.1 ++ ". " ++ ir.2 ++ "\n\n" = a ++ respPiece ir := by
      intro a ir _
      simp [respPiece, String.append_assoc]
    rw [List.foldl_ext _ _ _ hinner, foldl_append_eq]
    simp [layerBlock, String.append_assoc]
  rw [List.foldl_ext _ _ _ hstep, foldl_append_eq]

/-! ### Claim theorems -/

/-- C4: if the available-models list is empty, or the aggregator model
is unset, or the API base address is unset, `moa_process` returns the
descriptive configuration-error string and issues zero network calls;
the check precedes any network activity. -/
theorem moa_process_config_error (v : Valves) (sample : Nat → List String)
    (net : String → String → String) (prompt : String)
    (h : v.available_models = [] ∨ v.aggregator_model = "" ∨ v.openai_api_base = "") :
    moa_process v sample net prompt =
      ("Error: Available models, aggregator model, or API base URL not set.", []) := by
  rw [moa_process, if_pos h]

/-- Witness for C4 at an empty available-models list. -/
theorem moa_process_config_error_witness :
    ((([] : List String) = [] ∨ ("agg" : String) = "" ∨ ("u" : String) = "") ∧
      moa_process ⟨[], "agg", "u", "", 3, 3⟩ (fun _ => []) (fun _ _ => "r") "P" =
        ("Error: Available models, aggregator model, or API base URL not set.", [])) :=
  ⟨Or.inl rfl,
    moa_process_config_error ⟨[], "agg", "u", "", 3, 3⟩ (fun _ => []) (fun _ _ => "r")
      "P" (Or.inl rfl)⟩

/-- C10: with a non-positive layer count and the other preconditions
holding, `moa_process` returns no error: it skips the layer loop, makes
exactly one network call — to the aggregator model with the final
synthesis prompt built over an empty history — and returns that call's
response. -/
theorem moa_process_nonpos_layers (v : Valves) (sample : Nat → List String)
    (net : String → String → String) (prompt : String)
    (hl : v.num_layers ≤ 0) (h1 : v.available_models ≠ [])
    (h2 : v.aggregator_model ≠ "") (h3 : v.openai_api_base ≠ "") :
    moa_process v sample net prompt =
      (net v.aggregator_model (create_final_aggregator_prompt prompt []),
       [{ model := v.aggregator_model,
          prompt := create_final_aggregator_prompt prompt [] }]) := by
  rw [moa_process, if_neg (by tauto)]
  rw [Int.toNat_of_nonpos hl]
  rfl

/-- Witness for C10 at `num_layers = 0`. -/
theorem moa_process_nonpos_layers_witness :
    ((0 : Int) ≤ 0 ∧ (["A"] : List String) ≠ [] ∧ ("agg" : String) ≠ "" ∧
      ("u" : String) ≠ "" ∧
      moa_process ⟨["A"], "agg", "u", "", 0, 3⟩ (fun _ => []) (fun _ _ => "r") "P" =
        ("r",
         [{ model := "agg", prompt := create_final_aggregator_prompt "P" [] }])) :=
  ⟨by decide, by decide, by decide, by decide,
    moa_process_nonpos_layers ⟨["A"], "agg", "u", "", 0, 3⟩ (fun _ => [])
      (fun _ _ => "r") "P" (by decide) (by decide) (by decide) (by decide)⟩

/-- C6: for a run whose configuration preconditions hold and whose layer
count is at least 1, the history at the end of the layer loop has
exactly `num_layers` entries, whatever the per-call oracle returns (so
in particular even when every call returned a failure placeholder). -/
theorem moa_history_length (v : Valves) (sample : Nat → List String)
    (net : String → String → String) (prompt : String)
    (h1 : v.available_models ≠ []) (h2 : v.aggregator_model ≠ "")
    (h3 : v.openai_api_base ≠ "") (hl : 1 ≤ v.num_layers) :
    ((moaLoop v sample net prompt v.num_layers.toNat).1.length : Int) =
      v.num_layers := by
  rw [moaLoop_fst_length]
  exact Int.toNat_of_nonneg (by omega)

/-- Witness for C6 at two layers with a constantly failing oracle. -/
theorem moa_history_length_witness :
    ((["A"] : List String) ≠ [] ∧ ("agg" : String) ≠ "" ∧ ("u" : String) ≠ "" ∧
      (1 : Int) ≤ 2 ∧
      ((moaLoop ⟨["A"], "agg", "u", "", 2, 1⟩ (fun _ => ["A"])
          (fun m _ => "Error: Unable to query model " ++ m) "P"
          ((2 : Int)).toNat).1.length : Int) = 2) :=
  ⟨by decide, by decide, by decide, by decide,
    moa_history_length ⟨["A"], "agg", "u", "", 2, 1⟩ (fun _ => ["A"])
      (fun m _ => "Error: Unable to query model " ++ m) "P"
      (by decide) (by decide) (by decide) (by decide)⟩

/-- C1: at every intermediate layer `0 < L < num_layers`, the calls
issued are identical: each targets the configured aggregator model (not
the identity sampled for that layer) with the single aggregation prompt
built by `create_aggregator_prompt` from the immediately preceding
layer's output; the per-layer selection contributes only the number of
calls. -/
theorem intermediate_layer_calls (v : Valves) (sample : Nat → List String)
    (net : String → String → String) (prompt : String) (L : Nat)
    (h0 : 0 < L) (hn : L < v.num_layers.toNat) :
    (moaLoop v sample net prompt v.num_layers.toNat).2.getD L [] =
      List.replicate (sample L).length
        { model := v.aggregator_model,
          prompt := create_aggregator_prompt prompt
            ((moaLoop v sample net prompt v.num_layers.toNat).1.getD (L - 1) []) } :=
  moaLoop_calls_pos v sample net prompt L v.num_layers.toNat h0 hn

/-- Witness for C1 at layer 1 of a two-layer run. -/
theorem intermediate_layer_calls_witness :
    (0 < 1 ∧ 1 < ((2 : Int)).toNat ∧
      (moaLoop ⟨["A"], "agg", "u", "", 2, 1⟩ (fun _ => ["A"]) (fun _ _ => "r") "P"
          ((2 : Int)).toNat).2.getD 1 [] =
        List.replicate (["A"] : List String).length
          { model := "agg",
            prompt := create_aggregator_prompt "P"
              ((moaLoop ⟨["A"], "agg", "u", "", 2, 1⟩ (fun _ => ["A"]) (fun _ _ => "r")
                  "P" ((2 : Int)).toNat).1.getD 0 []) }) :=
  ⟨by decide, by decide,
    intermediate_layer_calls ⟨["A"], "agg", "u", "", 2, 1⟩ (fun _ => ["A"])
      (fun _ _ => "r") "P" 1 (by decide) (by decide)⟩

/-- C5: under the `random.sample` contract and with agents-per-layer at
least 1, every layer's recorded output has exactly
`min(num_agents_per_layer, len(available_models))` entries, and is the
list of the oracle's responses to that layer's recorded calls, one per
queried slot, in query order. -/
theorem layer_output_size (v : Valves) (sample : Nat → List String)
    (net : String → String → String) (prompt : String)
    (hs : SampleOk v sample) (ha : 1 ≤ v.num_agents_per_layer)
    (L : Nat) (hL : L < v.num_layers.toNat) :
    ((((moaLoop v sample net prompt v.num_layers.toNat).1.getD L []).length : Int) =
        min v.num_agents_per_layer (v.available_models.length : Int)) ∧
    (moaLoop v sample net prompt v.num_layers.toNat).1.getD L [] =
      ((moaLoop v sample net prompt v.num_layers.toNat).2.getD L []).map
        (fun c => net c.model c.prompt) := by
  refine ⟨?_, moaLoop_outputs v sample net prompt L _ hL⟩
  rw [moaLoop_outputs v sample net prompt L _ hL, List.length_map]
  rw [moaLoop_snd_getD_eq v sample net prompt L _ [] hL]
  rw [layerCalls, List.length_map]
  exact (hs L).1

/-- Witness for C5 at layer 0 of a one-layer run. -/
theorem layer_output_size_witness :
    (SampleOk ⟨["A", "B"], "agg", "u", "", 1, 1⟩ (fun _ => ["A"]) ∧
      (1 : Int) ≤ 1 ∧ 0 < ((1 : Int)).toNat ∧
      ((((moaLoop ⟨["A", "B"], "agg", "u", "", 1, 1⟩ (fun _ => ["A"]) (fun _ _ => "r")
            "P" ((1 : Int)).toNat).1.getD 0 []).length : Int) =
          min (1 : Int) ((["A", "B"] : List String).length : Int)) ∧
      (moaLoop ⟨["A", "B"], "agg", "u", "", 1, 1⟩ (fun _ => ["A"]) (fun _ _ => "r") "P"
          ((1 : Int)).toNat).1.getD 0 [] =
        ((moaLoop ⟨["A", "B"], "agg", "u", "", 1, 1⟩ (fun _ => ["A"]) (fun _ _ => "r")
            "P" ((1 : Int)).toNat).2.getD 0 []).map (fun c => (fun _ _ => "r") c.model c.prompt)) := by
  have hs : SampleOk ⟨["A", "B"], "agg", "u", "", 1, 1⟩ (fun _ => ["A"]) := by
    intro L
    refine ⟨by norm_num [sampleSize], List.nodup_singleton _, ?_⟩
    intro a ha
    simp at ha
    simp [ha]
  exact ⟨hs, by decide, by decide,
    layer_output_size ⟨["A", "B"], "agg", "u", "", 1, 1⟩ (fun _ => ["A"])
      (fun _ _ => "r") "P" hs (by decide) 0 (by decide)⟩

/-- C3 counterexample: with a single available backend and
`num_agents_per_layer = 2` — sampling contract satisfied — layer 1 of a
two-layer run issues one call, not `num_agents_per_layer` calls. -/
theorem layer_call_count_counterexample :
    SampleOk ⟨["A"], "agg", "u", "", 2, 2⟩ (fun _ => ["A"]) ∧
    ¬ ((((moaLoop ⟨["A"], "agg", "u", "", 2, 2⟩ (fun _ => ["A"]) (fun _ _ => "r") "P"
            ((2 : Int)).toNat).2.getD 1 []).length : Int) =
          (2 : Int)) := by
  refine ⟨?_, by decide⟩
  intro L
  refine ⟨?_, ?_, ?_⟩
  · show ((["A"] : List String).length : Int) = sampleSize ⟨["A"], "agg", "u", "", 2, 2⟩
    decide
  · show (["A"] : List String).Nodup
    decide
  · show ∀ a ∈ (["A"] : List String), a ∈ (["A"] : List String)
    decide

/-- C3 amended: for every configuration with numLayers ≥ 2, under the
`random.sample` contract, every layer L > 0 issues exactly
`min(num_agents_per_layer, len(available_models))` calls, each
targeting the aggregator model, regardless of which backend identities
the selector returned. -/
theorem layer_call_count_amended (v : Valves) (sample : Nat → List String)
    (net : String → String → String) (prompt : String)
    (hs : SampleOk v sample) (h2 : 2 ≤ v.num_layers) (L : Nat)
    (h0 : 0 < L) (hn : L < v.num_layers.toNat) :
    ((((moaLoop v sample net prompt v.num_layers.toNat).2.getD L []).length : Int) =
        min v.num_agents_per_layer (v.available_models.length : Int)) ∧
    ∀ c ∈ (moaLoop v sample net prompt v.num_layers.toNat).2.getD L [],
      c.model = v.aggregator_model := by
  have h := moaLoop_calls_pos v sample net prompt L v.num_layers.toNat h0 hn
  constructor
  · rw [h, List.length_replicate]
    exact (hs L).1
  · intro c hc
    rw [h] at hc
    rw [List.eq_of_mem_replicate hc]

/-- Witness for the amended C3 at layer 1 of a two-layer run with one
available backend. -/
theorem layer_call_count_amended_witness :
    (SampleOk ⟨["A"], "agg", "u", "", 2, 2⟩ (fun _ => ["A"]) ∧ (2 : Int) ≤ 2 ∧
      0 < 1 ∧ 1 < ((2 : Int)).toNat ∧
      (((((moaLoop ⟨["A"], "agg", "u", "", 2, 2⟩ (fun _ => ["A"]) (fun _ _ => "r") "P"
              ((2 : Int)).toNat).2.getD 1 []).length : Int) =
          min (2 : Int) (((["A"] : List String)).length : Int)) ∧
        ∀ c ∈ (moaLoop ⟨["A"], "agg", "u", "", 2, 2⟩ (fun _ => ["A"]) (fun _ _ => "r")
            "P" ((2 : Int)).toNat).2.getD 1 [],
          c.model = "agg")) := by
  have hs : SampleOk ⟨["A"], "agg", "u", "", 2, 2⟩ (fun _ => ["A"]) := by
    intro L
    refine ⟨?_, ?_, ?_⟩
    · show ((["A"] : List String).length : Int) = sampleSize ⟨["A"], "agg", "u", "", 2, 2⟩
      decide
    · show (["A"] : List String).Nodup
      decide
    · show ∀ a ∈ (["A"] : List String), a ∈ (["A"] : List String)
      decide
  exact ⟨hs, by decide, by decide, by decide,
    layer_call_count_amended ⟨["A"], "agg", "u", "", 2, 2⟩ (fun _ => ["A"])
      (fun _ _ => "r") "P" hs (by decide) 1 (by decide) (by decide)⟩

/-- C8 counterexample: with numLayers = 1, two agents per layer and
available models A and B, a full run of `moa_process` issues three
network calls — the two layer-0 calls plus the final aggregator call —
not exactly two. -/
theorem single_layer_total_calls_counterexample :
    SampleOk ⟨["A", "B"], "agg", "u", "", 1, 2⟩ (fun _ => ["A", "B"]) ∧
    (moa_process ⟨["A", "B"], "agg", "u", "", 1, 2⟩ (fun _ => ["A", "B"])
        (fun _ _ => "r") "P").2.length = 3 ∧
    ¬ (moa_process ⟨["A", "B"], "agg", "u", "", 1, 2⟩ (fun _ => ["A", "B"])
        (fun _ _ => "r") "P").2.length = 2 := by
  refine ⟨?_, by decide, by decide⟩
  intro L
  refine ⟨?_, ?_, ?_⟩
  · show ((["A", "B"] : List String).length : Int) =
      sampleSize ⟨["A", "B"], "agg", "u", "", 1, 2⟩
    decide
  · show (["A", "B"] : List String).Nodup
    decide
  · show ∀ a ∈ (["A", "B"] : List String), a ∈ (["A", "B"] : List String)
    decide

/-- Auxiliary: a duplicate-free two-element list drawn from two distinct
values A and B is either [A, B] or [B, A]. -/
theorem nodup_pair_cases (A B : String) (l : List String) (hlen : l.length = 2)
    (hnd : l.Nodup) (hmem : ∀ x ∈ l, x ∈ [A, B]) : l = [A, B] ∨ l = [B, A] := by
  match l, hlen with
  | [x, y], _ =>
    have hx := hmem x (by simp)
    have hy := hmem y (by simp)
    have hxy : x ≠ y := by
      simp [List.nodup_cons] at hnd
      exact hnd
    simp at hx hy
    rcases hx with rfl | rfl <;> rcases hy with rfl | rfl <;> simp_all

/-- C8 amended: for numLayers = 1, two agents per layer and distinct
available models [A, B], a run of `moa_process` makes exactly three
network calls: first the two layer-0 calls, each carrying the original
prompt, to A and B drawn without replacement (so in some order), then
one final call to the aggregator model with the final synthesis
prompt. -/
theorem single_layer_run_calls (A B : String) (v : Valves)
    (sample : Nat → List String) (net : String → String → String) (prompt : String)
    (hAB : A ≠ B) (hv : v.available_models = [A, B]) (hl : v.num_layers = 1)
    (hk : v.num_agents_per_layer = 2) (h2 : v.aggregator_model ≠ "")
    (h3 : v.openai_api_base ≠ "") (hs : SampleOk v sample) :
    (sample 0 = [A, B] ∨ sample 0 = [B, A]) ∧
    (moa_process v sample net prompt).2 =
      (sample 0).map (fun agent => { model := agent, prompt := prompt }) ++
        [{ model := v.aggregator_model,
           prompt := create_final_aggregator_prompt prompt
             (moaLoop v sample net prompt 1).1 }] := by
  constructor
  · have hlen : (sample 0).length = 2 := by
      have h := (hs 0).1
      rw [sampleSize, hk, hv] at h
      simp at h
      exact_mod_cast h
    have hmem : ∀ x ∈ sample 0, x ∈ [A, B] := by
      intro x hx
      have h := (hs 0).2.2 x hx
      rw [hv] at h
      exact h
    exact nodup_pair_cases A B (sample 0) hlen (hs 0).2.1 hmem
  · rw [moa_process, if_neg]
    · simp only [hl]
      simp [moaLoop, layerCalls, Int.toNat_one]
    · rw [hv]
      simp [h2, h3]

/-- Witness for the amended C8 with the draw coming back reversed. -/
theorem single_layer_run_calls_witness :
    (("A" : String) ≠ "B" ∧
      ((sample8w 0 = ["A", "B"] ∨ sample8w 0 = ["B", "A"]) ∧
        (moa_process ⟨["A", "B"], "agg", "u", "", 1, 2⟩ sample8w (fun _ _ => "r") "P").2 =
          (sample8w 0).map (fun agent => { model := agent, prompt := "P" }) ++
            [{ model := "agg",
               prompt := create_final_aggregator_prompt "P"
                 (moaLoop ⟨["A", "B"], "agg", "u", "", 1, 2⟩ sample8w
                   (fun _ _ => "r") "P" 1).1 }])) := by
  have hs : SampleOk ⟨["A", "B"], "agg", "u", "", 1, 2⟩ sample8w := by
    intro L
    refine ⟨?_, ?_, ?_⟩
    · show ((["B", "A"] : List String).length : Int) =
        sampleSize ⟨["A", "B"], "agg", "u", "", 1, 2⟩
      decide
    · show (["B", "A"] : List String).Nodup
      decide
    · show ∀ a ∈ (["B", "A"] : List String), a ∈ (["A", "B"] : List String)
      decide
  exact ⟨by decide,
    single_layer_run_calls "A" "B" ⟨["A", "B"], "agg", "u", "", 1, 2⟩ sample8w
      (fun _ _ => "r") "P" (by decide) rfl rfl rfl (by decide) (by decide) hs⟩

/-- C2 counterexample: a 200 response whose body parses as JSON but
lacks the choices key makes `query_ollama` raise a KeyError (not a
`requests.RequestException`, hence uncaught), instead of returning the
sentinel string. -/
theorem query_ollama_counterexample :
    query_ollama "m" (.httpResponse 200 (some (.obj []))) = .error .keyError := rfl

/-- C2 amended: the `try`/`except requests.RequestException` boundary
converts a transport error, a 4xx/5xx HTTP status, and a body that is
not valid JSON into the sentinel string identifying the backend; only
the subscript chain over a successfully decoded JSON payload can raise
(a lookup error), so the call never raises on those three failure
classes. -/
theorem query_ollama_contained (model : String) (o : NetOutcome)
    (h : o = .transportError ∨
      ∃ st b, o = .httpResponse st b ∧ ((400 ≤ st ∧ st < 600) ∨ b = none)) :
    query_ollama model o = .ok (.str ("Error: Unable to query model " ++ model)) := by
  rcases h with h | ⟨st, b, rfl, hc⟩
  · rw [h]
    rfl
  · rcases hc with hst | rfl
    · simp only [query_ollama]
      rw [if_pos hst]
    · simp only [query_ollama]
      split <;> rfl

/-- Witness for the amended C2 at a transport error. -/
theorem query_ollama_contained_witness :
    ((NetOutcome.transportError = NetOutcome.transportError ∨
        ∃ st b, NetOutcome.transportError = NetOutcome.httpResponse st b ∧
          ((400 ≤ st ∧ st < 600) ∨ b = none)) ∧
      query_ollama "m" .transportError =
        .ok (.str ("Error: Unable to query model " ++ "m"))) :=
  ⟨Or.inl rfl, query_ollama_contained "m" .transportError (Or.inl rfl)⟩

/-- C9: at the inlet boundary, a body with no messages key or an empty
messages list is returned unchanged with no network call; for a
non-empty list, only the last message's content field is replaced (by
the `moa_process` result on its previous content) — every earlier
message, the last message's other fields, and every other body field
are returned unchanged. -/
theorem inlet_frame (v : Valves) (sample : Nat → List String)
    (net : String → String → String) (body : Body α β) :
    ((body.messages = none ∨ body.messages = some []) →
      inlet v sample net body = (body, [])) ∧
    ∀ msgs, body.messages = some msgs → ∀ hne : msgs ≠ [],
      inlet v sample net body =
        ({ body with messages := some (msgs.dropLast ++
            [{ msgs.getLast hne with
               content := (moa_process v sample net (msgs.getLast hne).content).1 }]) },
         (moa_process v sample net (msgs.getLast hne).content).2) := by
  constructor
  · intro h
    rcases h with h | h <;> simp [inlet, h]
  · intro msgs h hne
    simp [inlet, h, hne]

/-- Witness for C9 at a one-message body over trivial extra fields. -/
theorem inlet_frame_witness :
    ((Body.mk (some [Message.mk "hi" ()]) () : Body Unit Unit).messages =
        some [Message.mk "hi" ()] ∧
      ([Message.mk "hi" ()] : List (Message Unit)) ≠ [] ∧
      inlet ⟨["A"], "agg", "u", "", 1, 1⟩ (fun _ => ["A"]) (fun _ _ => "r")
          (Body.mk (some [Message.mk "hi" ()]) () : Body Unit Unit) =
        (Body.mk (some [Message.mk
            (moa_process ⟨["A"], "agg", "u", "", 1, 1⟩ (fun _ => ["A"])
              (fun _ _ => "r") "hi").1 ()]) (),
         (moa_process ⟨["A"], "agg", "u", "", 1, 1⟩ (fun _ => ["A"])
           (fun _ _ => "r") "hi").2)) := by
  refine ⟨rfl, by decide, ?_⟩
  have h := (inlet_frame ⟨["A"], "agg", "u", "", 1, 1⟩ (fun _ => ["A"]) (fun _ _ => "r")
      (Body.mk (some [Message.mk "hi" ()]) () : Body Unit Unit)).2
    [Message.mk "hi" ()] rfl (by decide)
  simpa using h

/-- C7: the final aggregator prompt contains, for every layer, the
1-based layer header and every one of that layer's responses behind its
1-based per-layer enumeration, and it contains the original prompt text
at least twice — once in the leading context and once verbatim inside
the closing synthesis instruction. -/
theorem final_prompt_complete (p : String) (H : List (List String)) (hH : H ≠ []) :
    (∀ L, L < H.length →
      occursIn ("Layer " ++ Nat.repr (L + 1) ++ ":\n")
        (create_final_aggregator_prompt p H) ∧
      ∀ i, i < (H.getD L []).length →
        occursIn ("  " ++ Nat.repr (i + 1) ++ ". " ++ (H.getD L []).getD i "" ++ "\n\n")
          (create_final_aggregator_prompt p H)) ∧
    ∃ a b c, create_final_aggregator_prompt p H = a ++ p ++ b ++ p ++ c := by
  rw [create_final_aggregator_prompt_eq]
  constructor
  · intro L hL
    have h1L : 1 + L = L + 1 := Nat.add_comm 1 L
    have hmem : (L + 1, H.getD L []) ∈ enumerateFrom 1 H := by
      rw [← h1L]
      exact enumerateFrom_mem_getD 1 H L [] hL
    have hblock : occursIn (layerBlock (L + 1, H.getD L []))
        (strConcat ((enumerateFrom 1 H).map layerBlock)) :=
      strConcat_map_occurs layerBlock _ _ hmem
    have hbig : occursIn (layerBlock (L + 1, H.getD L []))
        (("Original prompt: " ++ p ++ "\n\nResponses from all layers:\n")
          ++ strConcat ((enumerateFrom 1 H).map layerBlock)
          ++ ("Considering all the responses from different layers and the original prompt \x27"
              ++ p
              ++ "\x27, provide a final, comprehensive answer that strictly adheres to the original request:")) :=
      occursIn_append_right _ _ _ (occursIn_append_left _ _ _ hblock)
    constructor
    · refine occursIn_trans _ _ _ ?_ hbig
      rw [layerBlock]
      exact ⟨"", strConcat ((enumerateFrom 1 (H.getD L [])).map respPiece), by
        simp [String.append_assoc]⟩
    · intro i hi
      have h1i : 1 + i = i + 1 := Nat.add_comm 1 i
      have hmemi : (i + 1, (H.getD L []).getD i "") ∈ enumerateFrom 1 (H.getD L []) := by
        rw [← h1i]
        exact enumerateFrom_mem_getD 1 (H.getD L []) i "" hi
      have hpiece : occursIn (respPiece (i + 1, (H.getD L []).getD i ""))
          (strConcat ((enumerateFrom 1 (H.getD L [])).map respPiece)) :=
        strConcat_map_occurs respPiece _ _ hmemi
      refine occursIn_trans _ _ _ ?_ hbig
      rw [layerBlock]
      exact occursIn_append_left _ _ _ hpiece
  · exact ⟨"Original prompt: ",
      "\n\nResponses from all layers:\n"
        ++ strConcat ((enumerateFrom 1 H).map layerBlock)
        ++ "Considering all the responses from different layers and the original prompt \x27",
      "\x27, provide a final, comprehensive answer that strictly adheres to the original request:",
      by simp [String.append_assoc]⟩

/-- Witness for C7 at a one-layer, one-response history. -/
theorem final_prompt_complete_witness :
    (([["r"]] : List (List String)) ≠ [] ∧
      ((∀ L, L < ([["r"]] : List (List String)).length →
        occursIn ("Layer " ++ Nat.repr (L + 1) ++ ":\n")
          (create_final_aggregator_prompt "q" [["r"]]) ∧
        ∀ i, i < (([["r"]] : List (List String)).getD L []).length →
          occursIn ("  " ++ Nat.repr (i + 1) ++ ". "
              ++ (([["r"]] : List (List String)).getD L []).getD i "" ++ "\n\n")
            (create_final_aggregator_prompt "q" [["r"]])) ∧
      ∃ a b c, create_final_aggregator_prompt "q" [["r"]] =
        a ++ "q" ++ b ++ "q" ++ c)) :=
  ⟨by decide, final_prompt_complete "q" [["r"]] (by decide)⟩

end MoA
